import Mathlib

/-!
Shallow embedding of `src/bank_account.py` (class `BankAccount`).

Python values that the methods inspect with `isinstance` are modelled by
`PyVal`: an `int`, a `float` (idealised as a rational number), a
`datetime.date` (idealised as an integer ordinal), or some other,
non-numeric object carried as its `str()` representation.  Monetary
amounts are rationals, the standard idealisation of Python floats.

Raised exceptions are modelled as explicit error results (`PyErr`), and a
method call on an account returns the post-call object state, the list of
`notify(message)` calls it made (in order), and the exception it raised,
if any (`OpResult`).  Observer references are modelled as natural-number
identities kept in the `_observers` list of the `Subject` base class;
`Subject.__init__` (from `patterns.observer.subject`, not under `src/`)
only initialises that list to empty, which is how `init` models it.
-/

namespace BankSpec

/-- A Python value as far as `BankAccount`'s `isinstance` checks see it. -/
inductive PyVal where
  | int : Int → PyVal
  | float : ℚ → PyVal
  | date : Int → PyVal
  | other : String → PyVal
deriving DecidableEq, Repr

/-- `isinstance(v, (int, float))`. -/
def PyVal.isNumeric : PyVal → Bool
  | .int _ => true
  | .float _ => true
  | .date _ => false
  | .other _ => false

/-- The numeric value of a `PyVal` (0 for non-numerics, never used there). -/
def PyVal.toRat : PyVal → ℚ
  | .int n => (n : ℚ)
  | .float q => q
  | .date _ => 0
  | .other _ => 0

/-- Python `str()` of the value, as used in the `f"...{amount}..."` error
messages for non-numeric amounts. -/
def PyVal.pyStr : PyVal → String
  | .int n => toString n
  | .float q => toString q
  | .date d => toString d
  | .other s => s

/-- Python exceptions raised by the embedded methods. -/
inductive PyErr where
  | valueError : String → PyErr
  | typeError : String → PyErr
deriving DecidableEq, Repr

/-- State of a `BankAccount` object: identity fields, balance, creation
date and the `Subject`s observer list (observer references in
subscription order). -/
structure BankAccount where
  account_number : Int
  client_number : Int
  balance : ℚ
  date_created : Int
  observers : List Nat
deriving DecidableEq, Repr

/-- `BankAccount.LARGE_TRANSACTION_THRESHOLD = 9999.99`. -/
def LARGE_TRANSACTION_THRESHOLD : ℚ := 999999 / 100

/-- `BankAccount.LOW_BALANCE_LEVEL = 50.0`. -/
def LOW_BALANCE_LEVEL : ℚ := 50

/-! ### Python's `format(x, ",.2f")`, idealised over ℚ -/

/-- Round to the nearest integer, ties to even (the rounding used by
Python's fixed-point float formatting). -/
def roundHalfEven (q : ℚ) : Int :=
  let f := q.floor
  let r := q - (f : ℚ)
  if r < 1 / 2 then f
  else if 1 / 2 < r then f + 1
  else if f % 2 = 0 then f else f + 1

/-- Insert a thousands separator into a reversed digit list: after every
three characters (counted from the little end) a comma is placed. -/
def commaRev : List Char → List Char
  | c1 :: c2 :: c3 :: c4 :: rest => c1 :: c2 :: c3 :: ',' :: commaRev (c4 :: rest)
  | l => l

/-- Group the digits of a decimal string in threes with commas, as the
`,` option of a Python format spec does to the integer part. -/
def withCommas (s : String) : String :=
  ⟨(commaRev s.data.reverse).reverse⟩

/-- Two-digit rendering of a number of cents below 100. -/
def pad2 (fp : Nat) : String :=
  if fp < 10 then "0" ++ toString fp else toString fp

/-- Python `f"{q:,.2f}"`: sign, integer part grouped in threes by commas,
a point, and exactly two fractional digits (rounding half to even). -/
def formatFixed2 (q : ℚ) : String :=
  let cents := roundHalfEven (q * 100)
  let sign := if cents < 0 then "-" else ""
  let n := cents.natAbs
  sign ++ withCommas (toString (n / 100)) ++ "." ++ pad2 (n % 100)

/-! ### The message strings built by `update_balance` -/

/-- The message built at lines 106-107 of the source. -/
def lowMessage (b : ℚ) (n : Int) : String :=
  "Low balance warning $" ++ formatFixed2 b ++ ": on account " ++ toString n ++ "."

/-- The message built at lines 112-113 of the source. -/
def largeMessage (a : ℚ) (n : Int) : String :=
  "Large transaction $" ++ formatFixed2 a ++ ": on account " ++ toString n ++ "."

/-- Result of calling a mutating method on a `BankAccount`: the object
state after the call returns or the exception propagates, the arguments
of the `notify` calls made (in order), and the exception, if one was
raised. -/
structure OpResult where
  state : BankAccount
  msgs : List String
  err : Option PyErr
deriving DecidableEq, Repr

/-- `update_balance` (source lines 93-115).  The `isinstance` guard adds a
numeric `amount` to the balance and skips non-numerics; the low-balance
check then runs against the (possibly unchanged) balance; finally
`abs(amount)` is evaluated, which raises `TypeError` when `amount` is not
numeric (dates, strings, `None`, ... have no `abs`), aborting the method
after any low-balance notification has already been sent. -/
def update_balance (self : BankAccount) (amount : PyVal) : OpResult :=
  let self1 :=
    if amount.isNumeric then { self with balance := amount.toRat + self.balance } else self
  let lowMsgs :=
    if self1.balance < LOW_BALANCE_LEVEL then
      [lowMessage self1.balance self1.account_number]
    else []
  if amount.isNumeric then
    let largeMsgs :=
      if LARGE_TRANSACTION_THRESHOLD < |amount.toRat| then
        [largeMessage amount.toRat self1.account_number]
      else []
    { state := self1, msgs := lowMsgs ++ largeMsgs, err := none }
  else
    { state := self1, msgs := lowMsgs,
      err := some (.typeError "bad operand type for abs()") }

/-- `deposit` (source lines 117-135). -/
def deposit (self : BankAccount) (amount : PyVal) : OpResult :=
  if amount.isNumeric = false then
    { state := self, msgs := [],
      err := some (.valueError ("Deposit amount: " ++ amount.pyStr ++ " must be numeric.")) }
  else if amount.toRat < 0 then
    { state := self, msgs := [],
      err := some (.valueError
        ("Deposit amount: $" ++ formatFixed2 amount.toRat ++ " must be positive.")) }
  else
    update_balance self amount

/-- `withdraw` (source lines 137-161). -/
def withdraw (self : BankAccount) (amount : PyVal) : OpResult :=
  if amount.isNumeric = false then
    { state := self, msgs := [],
      err := some (.valueError ("Withdraw amount: " ++ amount.pyStr ++ " must be numeric.")) }
  else if amount.toRat < 0 then
    { state := self, msgs := [],
      err := some (.valueError
        ("Withdrawal amount: $" ++ formatFixed2 amount.toRat ++ " must be positive.")) }
  else if self.balance < amount.toRat then
    { state := self, msgs := [],
      err := some (.valueError
        ("Withdrawal amount: $" ++ formatFixed2 amount.toRat
          ++ " must not exceed the account balance: $" ++ formatFixed2 self.balance)) }
  else
    update_balance self (.float (-amount.toRat))

/-- `__str__` (source lines 163-171). -/
def strRep (self : BankAccount) : String :=
  "Account Number: " ++ toString self.account_number
    ++ " Balance: $" ++ formatFixed2 self.balance ++ "\n"

/-- Result of running the constructor: either the constructed object or
the exception, plus any `notify` calls made (the body contains none). -/
structure InitResult where
  res : Except PyErr BankAccount
  msgs : List String
deriving Repr

/-- `__init__` (source lines 20-60).  `today` supplies the ambient
`date.today()` used when `date_created` is not a `date`. -/
def init (account_number client_number balance date_created : PyVal)
    (today : Int) : InitResult :=
  match account_number with
  | .int a =>
    match client_number with
    | .int c =>
      let b : ℚ := if balance.isNumeric then balance.toRat else 0
      let d : Int := match date_created with | .date dd => dd | _ => today
      { res := .ok { account_number := a, client_number := c, balance := b,
                     date_created := d, observers := [] },
        msgs := [] }
    | _ => { res := .error (.valueError "Client number must be an integer."), msgs := [] }
  | _ => { res := .error (.valueError "Account number must be an integer."), msgs := [] }

/-- `attach` (source lines 181-188): `self._observers.append(observer)`. -/
def attach (self : BankAccount) (o : Nat) : BankAccount :=
  { self with observers := self.observers ++ [o] }

/-- Python `list.remove`: drop the first occurrence, `none` when absent. -/
def removeFirst (l : List Nat) (o : Nat) : Option (List Nat) :=
  match l with
  | [] => none
  | x :: xs => if x = o then some xs else (removeFirst xs o).map (x :: ·)

/-- `detach` (source lines 190-197): `self._observers.remove(observer)`,
which raises `ValueError` when the observer is not in the list. -/
def detach (self : BankAccount) (o : Nat) : Except PyErr BankAccount :=
  match removeFirst self.observers o with
  | some l => .ok { self with observers := l }
  | none => .error (.valueError "list.remove(x): x not in list")

/-- `notify` (source lines 199-207): the sequence of `observer.update(message)`
calls it makes, as (observer, message) pairs in subscription order. -/
def notifyDeliveries (self : BankAccount) (message : String) : List (Nat × String) :=
  self.observers.map (fun o => (o, message))

/-- Classifier used to state the notification claims: the low-balance
messages are exactly those starting with the four characters `Low `. -/
def isLowMsg (m : String) : Bool :=
  decide (m.data.take 4 = ['L', 'o', 'w', ' '])

/-- Classifier: the large-transaction messages are exactly those starting
with the four characters `Larg`. -/
def isLargeMsg (m : String) : Bool :=
  decide (m.data.take 4 = ['L', 'a', 'r', 'g'])

/-! ### Helper lemmas -/

theorem take4_lowPre (s : String) :
    ("Low balance warning $" ++ s).data.take 4 = ['L', 'o', 'w', ' '] := by
  rw [String.data_append]; rfl

theorem take4_largePre (s : String) :
    ("Large transaction $" ++ s).data.take 4 = ['L', 'a', 'r', 'g'] := by
  rw [String.data_append]; rfl

theorem isLowMsg_lowMessage (b : ℚ) (n : Int) : isLowMsg (lowMessage b n) = true := by
  unfold isLowMsg lowMessage
  rw [decide_eq_true_eq, String.append_assoc, String.append_assoc, String.append_assoc]
  exact take4_lowPre _

theorem isLowMsg_largeMessage (a : ℚ) (n : Int) : isLowMsg (largeMessage a n) = false := by
  unfold isLowMsg largeMessage
  rw [decide_eq_false_iff_not]
  intro h
  rw [String.append_assoc, String.append_assoc, String.append_assoc, take4_largePre] at h
  exact absurd h (by decide)

theorem isLargeMsg_largeMessage (a : ℚ) (n : Int) : isLargeMsg (largeMessage a n) = true := by
  unfold isLargeMsg largeMessage
  rw [decide_eq_true_eq, String.append_assoc, String.append_assoc, String.append_assoc]
  exact take4_largePre _

theorem isLargeMsg_lowMessage (b : ℚ) (n : Int) : isLargeMsg (lowMessage b n) = false := by
  unfold isLargeMsg lowMessage
  rw [decide_eq_false_iff_not]
  intro h
  rw [String.append_assoc, String.append_assoc, String.append_assoc, take4_lowPre] at h
  exact absurd h (by decide)

/-- Shape of a call of `update_balance` with a numeric amount: the amount
is added to the balance, no exception is raised, and the notifications are
the low-balance one (when the new balance is under the level) followed by
the large-transaction one (when the amount's magnitude is over the
threshold). -/
theorem update_balance_numeric (self : BankAccount) (amount : PyVal)
    (h : amount.isNumeric = true) :
    update_balance self amount =
      { state := { self with balance := amount.toRat + self.balance },
        msgs :=
          (if amount.toRat + self.balance < LOW_BALANCE_LEVEL then
             [lowMessage (amount.toRat + self.balance) self.account_number]
           else [])
          ++ (if LARGE_TRANSACTION_THRESHOLD < |amount.toRat| then
             [largeMessage amount.toRat self.account_number]
           else []),
        err := none } := by
  simp [update_balance, h]

theorem removeFirst_eq_none (l : List Nat) (o : Nat) (h : o ∉ l) :
    removeFirst l o = none := by
  induction l with
  | nil => rfl
  | cons x xs ih =>
    rw [List.mem_cons, not_or] at h
    rw [removeFirst, if_neg (fun he : x = o => h.1 he.symm), ih h.2]
    rfl

/-! ### Claim theorems -/

/-- C1: for every account state and every withdraw argument that is
non-numeric, negative, or strictly greater than the current balance,
`withdraw` raises a `ValueError` and the account state, in particular the
balance, is unchanged. -/
theorem withdraw_invalid_raises_and_preserves_state
    (self : BankAccount) (amount : PyVal)
    (h : amount.isNumeric = false ∨ amount.toRat < 0 ∨ self.balance < amount.toRat) :
    (∃ s, (withdraw self amount).err = some (PyErr.valueError s)) ∧
    (withdraw self amount).state = self := by
  unfold withdraw
  split_ifs with h1 h2 h3
  · exact ⟨⟨_, rfl⟩, rfl⟩
  · exact ⟨⟨_, rfl⟩, rfl⟩
  · exact ⟨⟨_, rfl⟩, rfl⟩
  · rcases h with h | h | h
    · exact absurd h h1
    · exact absurd h h2
    · exact absurd h h3

theorem withdraw_invalid_witness :
    (∃ s, (withdraw ⟨1, 2, 100, 0, []⟩ (PyVal.float 200)).err
       = some (PyErr.valueError s)) ∧
    (withdraw ⟨1, 2, 100, 0, []⟩ (PyVal.float 200)).state = ⟨1, 2, 100, 0, []⟩ :=
  withdraw_invalid_raises_and_preserves_state ⟨1, 2, 100, 0, []⟩ (PyVal.float 200)
    (Or.inr (Or.inr (by decide)))

/-- C2: for every account state with balance b and every numeric amount a
with 0 ≤ a ≤ b, `withdraw(a)` raises nothing and the resulting balance is
exactly b − a. -/
theorem withdraw_valid_decreases_balance
    (self : BankAccount) (amount : PyVal) (hn : amount.isNumeric = true)
    (h0 : 0 ≤ amount.toRat) (h1 : amount.toRat ≤ self.balance) :
    (withdraw self amount).err = none ∧
    (withdraw self amount).state.balance = self.balance - amount.toRat := by
  unfold withdraw
  split_ifs with ha hb hc
  · rw [hn] at ha; exact absurd ha (by decide)
  · exact absurd hb (not_lt.mpr h0)
  · exact absurd hc (not_lt.mpr h1)
  · rw [update_balance_numeric self (.float (-amount.toRat)) rfl]
    refine ⟨rfl, ?_⟩
    show PyVal.toRat (.float (-amount.toRat)) + self.balance
      = self.balance - amount.toRat
    show -amount.toRat + self.balance = self.balance - amount.toRat
    ring

theorem withdraw_valid_witness :
    PyVal.isNumeric (PyVal.float 30) = true ∧ (0 : ℚ) ≤ 30 ∧ (30 : ℚ) ≤ 100 ∧
    ((withdraw ⟨1, 2, 100, 0, []⟩ (PyVal.float 30)).err = none ∧
     (withdraw ⟨1, 2, 100, 0, []⟩ (PyVal.float 30)).state.balance = 100 - 30) :=
  ⟨rfl, by decide, by decide,
    withdraw_valid_decreases_balance ⟨1, 2, 100, 0, []⟩ (PyVal.float 30)
      rfl (by decide) (by decide)⟩

/-- C3: for every numeric amount a ≥ 0, `deposit(a)` raises nothing and
the new balance is the old balance plus a; for negative or non-numeric
amounts `deposit` raises a `ValueError` and the account state — in
particular the balance — is unchanged. -/
theorem deposit_spec (self : BankAccount) (amount : PyVal) :
    (amount.isNumeric = true → 0 ≤ amount.toRat →
      (deposit self amount).err = none ∧
      (deposit self amount).state.balance = self.balance + amount.toRat) ∧
    ((amount.isNumeric = false ∨ amount.toRat < 0) →
      (∃ s, (deposit self amount).err = some (PyErr.valueError s)) ∧
      (deposit self amount).state = self) := by
  constructor
  · intro hn h0
    unfold deposit
    split_ifs with ha hb
    · rw [hn] at ha; exact absurd ha (by decide)
    · exact absurd hb (not_lt.mpr h0)
    · rw [update_balance_numeric _ _ hn]
      refine ⟨rfl, ?_⟩
      show amount.toRat + self.balance = self.balance + amount.toRat
      ring
  · intro h
    unfold deposit
    split_ifs with ha hb
    · exact ⟨⟨_, rfl⟩, rfl⟩
    · exact ⟨⟨_, rfl⟩, rfl⟩
    · rcases h with h | h
      · exact absurd h ha
      · exact absurd h hb

theorem deposit_spec_witness :
    ((deposit ⟨1, 2, 100, 0, []⟩ (PyVal.float 5)).err = none ∧
     (deposit ⟨1, 2, 100, 0, []⟩ (PyVal.float 5)).state.balance = 100 + 5) ∧
    ((∃ s, (deposit ⟨1, 2, 100, 0, []⟩ (PyVal.other "abc")).err
        = some (PyErr.valueError s)) ∧
     (deposit ⟨1, 2, 100, 0, []⟩ (PyVal.other "abc")).state = ⟨1, 2, 100, 0, []⟩) :=
  ⟨(deposit_spec ⟨1, 2, 100, 0, []⟩ (PyVal.float 5)).1 rfl (by decide),
   (deposit_spec ⟨1, 2, 100, 0, []⟩ (PyVal.other "abc")).2 (Or.inl rfl)⟩

/-- C7: withdrawals never take the balance below zero: starting from a
non-negative balance, after any call of `withdraw` — succeeding or
raising — the balance is still non-negative. -/
theorem withdraw_preserves_nonneg_balance
    (self : BankAccount) (amount : PyVal) (h : 0 ≤ self.balance) :
    0 ≤ (withdraw self amount).state.balance := by
  unfold withdraw
  split_ifs with h1 h2 h3
  · exact h
  · exact h
  · exact h
  · rw [update_balance_numeric self (.float (-amount.toRat)) rfl]
    show 0 ≤ PyVal.toRat (.float (-amount.toRat)) + self.balance
    show 0 ≤ -amount.toRat + self.balance
    have := not_lt.mp h3
    linarith

theorem withdraw_preserves_nonneg_witness :
    (0 : ℚ) ≤ 100 ∧ 0 ≤ (withdraw ⟨1, 2, 100, 0, []⟩ (PyVal.float 100)).state.balance :=
  ⟨by decide, withdraw_preserves_nonneg_balance ⟨1, 2, 100, 0, []⟩
    (PyVal.float 100) (by decide)⟩

/-- C5: a call of `update_balance` with a numeric delta emits exactly one
low-balance notification — whose message carries the new balance and the
account number — when the new balance is strictly below 50.0, and none
when the new balance is at least 50.0. -/
theorem update_balance_low_balance_alert
    (self : BankAccount) (amount : PyVal) (hn : amount.isNumeric = true) :
    (amount.toRat + self.balance < LOW_BALANCE_LEVEL →
      (update_balance self amount).msgs.filter isLowMsg
        = [lowMessage (amount.toRat + self.balance) self.account_number] ∧
      (∃ s t, lowMessage (amount.toRat + self.balance) self.account_number
         = s ++ formatFixed2 (amount.toRat + self.balance) ++ t) ∧
      (∃ s t, lowMessage (amount.toRat + self.balance) self.account_number
         = s ++ toString self.account_number ++ t)) ∧
    (LOW_BALANCE_LEVEL ≤ amount.toRat + self.balance →
      (update_balance self amount).msgs.filter isLowMsg = []) := by
  have hm : (update_balance self amount).msgs =
      (if amount.toRat + self.balance < LOW_BALANCE_LEVEL then
         [lowMessage (amount.toRat + self.balance) self.account_number]
       else [])
      ++ (if LARGE_TRANSACTION_THRESHOLD < |amount.toRat| then
         [largeMessage amount.toRat self.account_number]
       else []) := by
    rw [update_balance_numeric self amount hn]
  constructor
  · intro hlt
    refine ⟨?_, ?_, ?_⟩
    · rw [hm, if_pos hlt]
      split_ifs with hl
      · simp [isLowMsg_lowMessage, isLowMsg_largeMessage]
      · simp [isLowMsg_lowMessage]
    · exact ⟨"Low balance warning $",
        ": on account " ++ toString self.account_number ++ ".",
        by simp [lowMessage, String.append_assoc]⟩
    · exact ⟨"Low balance warning $"
          ++ formatFixed2 (amount.toRat + self.balance) ++ ": on account ",
        ".", by simp [lowMessage, String.append_assoc]⟩
  · intro hge
    rw [hm, if_neg (not_lt.mpr hge)]
    split_ifs with hl
    · simp [isLowMsg_largeMessage]
    · simp

theorem update_balance_low_alert_witness :
    (update_balance ⟨1, 2, 100, 0, []⟩ (PyVal.float (-60))).msgs.filter isLowMsg
      = [lowMessage (PyVal.toRat (PyVal.float (-60)) + 100) 1] :=
  ((update_balance_low_balance_alert ⟨1, 2, 100, 0, []⟩ (PyVal.float (-60))
    rfl).1 (by norm_num [PyVal.toRat, LOW_BALANCE_LEVEL])).1

/-- C6: a call of `update_balance` with a numeric delta emits exactly one
large-transaction notification — whose message carries the delta and the
account number — when the delta's magnitude exceeds 9999.99, and none
otherwise; when the low-balance condition holds as well, both
notifications fire with the low-balance one first. -/
theorem update_balance_large_transaction_alert
    (self : BankAccount) (amount : PyVal) (hn : amount.isNumeric = true) :
    (LARGE_TRANSACTION_THRESHOLD < |amount.toRat| →
      (update_balance self amount).msgs.filter isLargeMsg
        = [largeMessage amount.toRat self.account_number] ∧
      (∃ s t, largeMessage amount.toRat self.account_number
         = s ++ formatFixed2 amount.toRat ++ t) ∧
      (∃ s t, largeMessage amount.toRat self.account_number
         = s ++ toString self.account_number ++ t)) ∧
    (|amount.toRat| ≤ LARGE_TRANSACTION_THRESHOLD →
      (update_balance self amount).msgs.filter isLargeMsg = []) ∧
    (amount.toRat + self.balance < LOW_BALANCE_LEVEL →
      LARGE_TRANSACTION_THRESHOLD < |amount.toRat| →
      (update_balance self amount).msgs
        = [lowMessage (amount.toRat + self.balance) self.account_number,
           largeMessage amount.toRat self.account_number]) := by
  have hm : (update_balance self amount).msgs =
      (if amount.toRat + self.balance < LOW_BALANCE_LEVEL then
         [lowMessage (amount.toRat + self.balance) self.account_number]
       else [])
      ++ (if LARGE_TRANSACTION_THRESHOLD < |amount.toRat| then
         [largeMessage amount.toRat self.account_number]
       else []) := by
    rw [update_balance_numeric self amount hn]
  refine ⟨?_, ?_, ?_⟩
  · intro hlg
    refine ⟨?_, ?_, ?_⟩
    · rw [hm, if_pos hlg]
      split_ifs with hl
      · simp [isLargeMsg_lowMessage, isLargeMsg_largeMessage]
      · simp [isLargeMsg_largeMessage]
    · exact ⟨"Large transaction $",
        ": on account " ++ toString self.account_number ++ ".",
        by simp [largeMessage, String.append_assoc]⟩
    · exact ⟨"Large transaction $"
          ++ formatFixed2 amount.toRat ++ ": on account ",
        ".", by simp [largeMessage, String.append_assoc]⟩
  · intro hle
    rw [hm, if_neg (not_lt.mpr hle)]
    split_ifs with hl
    · simp [isLargeMsg_lowMessage]
    · simp
  · intro hlow hlg
    rw [hm, if_pos hlow, if_pos hlg]
    rfl

theorem update_balance_large_alert_witness :
    (update_balance ⟨1, 2, 10020, 0, []⟩ (PyVal.float (-10000))).msgs
      = [lowMessage (PyVal.toRat (PyVal.float (-10000)) + 10020) 1,
         largeMessage (PyVal.toRat (PyVal.float (-10000))) 1] :=
  (update_balance_large_transaction_alert ⟨1, 2, 10020, 0, []⟩
    (PyVal.float (-10000)) rfl).2.2
    (by norm_num [PyVal.toRat, LOW_BALANCE_LEVEL])
    (by norm_num [PyVal.toRat, LARGE_TRANSACTION_THRESHOLD])

/-- C4: evaluating `update_balance` at a non-numeric argument on a
concrete account: the balance is indeed not mutated, but contrary to the
claim the call does not stay silent — it raises a `TypeError` from the
unguarded `abs(amount)` at line 111 of the source. -/
theorem update_balance_non_numeric_raises :
    (update_balance ⟨1, 2, 100, 0, []⟩ (PyVal.other "abc")).state
      = ⟨1, 2, 100, 0, []⟩ ∧
    (update_balance ⟨1, 2, 100, 0, []⟩ (PyVal.other "abc")).err
      = some (PyErr.typeError "bad operand type for abs()") :=
  ⟨rfl, rfl⟩

theorem pad2_length (n : Nat) (h : n < 100) : (pad2 n).length = 2 := by
  interval_cases n <;> rfl

theorem pad2_all_digits (n : Nat) (h : n < 100) :
    (pad2 n).data.all Char.isDigit = true := by
  interval_cases n <;> decide

/-- C8 (amended): the string representation is the literal pattern
`Account Number: {n} Balance: ${balance}` — the balance rendered by the
`,.2f` format, i.e. grouped by thousands separators with exactly two
fractional digits — followed by a single trailing newline character. -/
theorem strRep_pattern_with_newline (self : BankAccount) :
    strRep self
      = "Account Number: " ++ toString self.account_number ++ " Balance: $"
        ++ formatFixed2 self.balance ++ "\n" ∧
    ∃ p fp, fp < 100 ∧
      formatFixed2 self.balance = p ++ "." ++ pad2 fp ∧
      (pad2 fp).length = 2 ∧ (pad2 fp).data.all Char.isDigit = true := by
  refine ⟨rfl,
    (if roundHalfEven (self.balance * 100) < 0 then "-" else "")
      ++ withCommas (toString ((roundHalfEven (self.balance * 100)).natAbs / 100)),
    (roundHalfEven (self.balance * 100)).natAbs % 100,
    Nat.mod_lt _ (by norm_num), ?_,
    pad2_length _ (Nat.mod_lt _ (by norm_num)),
    pad2_all_digits _ (Nat.mod_lt _ (by norm_num))⟩
  rfl

/-- C8 (counterexample): on a concrete account the string representation
is not exactly the claimed pattern with no additional characters — the
source appends a newline after the formatted balance. -/
theorem strRep_exact_pattern_counterexample :
    strRep ⟨1, 2, 0, 0, []⟩ ≠ "Account Number: 1 Balance: $0.00" := by
  intro hEq
  have hnl : "\n".data = ['\n'] := rfl
  have h1 : '\n' ∈ (strRep ⟨1, 2, 0, 0, []⟩).data := by
    unfold strRep
    simp [String.data_append, hnl]
  rw [hEq] at h1
  exact absurd h1 (by decide)

/-- C9: detaching an observer that is not subscribed raises the
`ValueError` of `list.remove`; attaching an observer twice makes `notify`
deliver the message to it twice, and the deliveries follow subscription
order. -/
theorem observer_attach_detach_semantics
    (self : BankAccount) (o : Nat) (msg : String) (h : o ∉ self.observers) :
    (∃ s, detach self o = Except.error (PyErr.valueError s)) ∧
    ((notifyDeliveries (attach (attach self o) o) msg).count (o, msg)
      = (notifyDeliveries self msg).count (o, msg) + 2) ∧
    ((notifyDeliveries (attach (attach self o) o) msg).map Prod.fst
      = self.observers ++ [o, o]) := by
  refine ⟨?_, ?_, ?_⟩
  · simp only [detach, removeFirst_eq_none self.observers o h]
    exact ⟨_, rfl⟩
  · simp [notifyDeliveries, attach, List.count_append]
  · have hc : (Prod.fst ∘ fun o : ℕ => (o, msg)) = id := rfl
    simp [notifyDeliveries, attach, hc]

theorem observer_attach_detach_witness :
    (∃ s, detach ⟨1, 2, 100, 0, [7]⟩ 3 = Except.error (PyErr.valueError s)) ∧
    ((notifyDeliveries (attach (attach ⟨1, 2, 100, 0, [7]⟩ 3) 3) "m").count (3, "m")
      = (notifyDeliveries ⟨1, 2, 100, 0, [7]⟩ "m").count (3, "m") + 2) ∧
    ((notifyDeliveries (attach (attach ⟨1, 2, 100, 0, [7]⟩ 3) 3) "m").map Prod.fst
      = [7] ++ [3, 3]) :=
  observer_attach_detach_semantics ⟨1, 2, 100, 0, [7]⟩ 3 "m" (by decide)

/-- C10: the constructor emits no notification: even when the initial
balance is below the low-balance level (or past the large-transaction
threshold in magnitude), construction with integer identities succeeds
with exactly that balance and makes no `notify` call. -/
theorem init_emits_no_notification
    (an cn : Int) (b : ℚ) (d : PyVal) (today : Int)
    (_h : b < LOW_BALANCE_LEVEL ∨ LARGE_TRANSACTION_THRESHOLD < |b|) :
    (init (PyVal.int an) (PyVal.int cn) (PyVal.float b) d today).msgs = [] ∧
    ∃ acct, (init (PyVal.int an) (PyVal.int cn) (PyVal.float b) d today).res
        = Except.ok acct ∧ acct.balance = b :=
  ⟨rfl, ⟨_, rfl, rfl⟩⟩

theorem init_emits_no_notification_witness :
    ((20 : ℚ) < LOW_BALANCE_LEVEL ∨ LARGE_TRANSACTION_THRESHOLD < |(20 : ℚ)|) ∧
    ((init (PyVal.int 1) (PyVal.int 2) (PyVal.float 20) (PyVal.date 5) 0).msgs = []
      ∧ ∃ acct,
        (init (PyVal.int 1) (PyVal.int 2) (PyVal.float 20) (PyVal.date 5) 0).res
          = Except.ok acct ∧ acct.balance = 20) :=
  ⟨Or.inl (by decide),
   init_emits_no_notification 1 2 20 (PyVal.date 5) 0 (Or.inl (by decide))⟩

end BankSpec
